import Mathlib

/-!
Shallow embedding of the Horion Farms order-and-payment backend
(`main.py`, `schemas.py`).

Modelling conventions:
* Python floats are modelled as exact rationals (`ℚ`) where the code only
  adds, multiplies and compares them (order validation, stored amounts),
  and as real numbers (`ℝ`) where the code applies trigonometry
  (the haversine distance and the ETA formula).
* Pydantic response models are structures; constructing a pydantic model
  is modelled by an explicit smart constructor that takes every keyword
  argument as an `Option` and fails (ValidationError) when a required
  field — one declared without a default — is not supplied.
* The MongoDB collaborator is modelled by two function parameters:
  `parse` for `ObjectId(order_id)` (which raises on malformed input,
  modelled as `none`) and `find` for `db["order"].find_one`.
* The outbound Paystack HTTP call is modelled by an inductive outcome
  parameter: either a transport-level exception (anything raised by
  `requests` / `res.json()`) or a parsed JSON body with the fields the
  handler reads.
-/

namespace HorionFarms

/-- An item of an order, from `schemas.py` (`OrderItem`). -/
structure OrderItem where
  name : String
  unit_price : ℚ
  quantity : ℕ
  deriving Repr, DecidableEq

/-- Customer information, from `schemas.py` (`CustomerInfo`). -/
structure CustomerInfo where
  name : String
  email : String
  phone : String
  address : String
  city : String
  deriving Repr, DecidableEq

/-- The order-creation request body, from `schemas.py` (`OrderCreate`). -/
structure OrderCreate where
  items : List OrderItem
  customer : CustomerInfo
  subtotal : ℚ
  delivery_fee : ℚ
  total : ℚ
  deriving Repr, DecidableEq

/-- The persisted order document, from `schemas.py` (`Order`). -/
structure OrderRecord where
  items : List OrderItem
  customer : CustomerInfo
  subtotal : ℚ
  delivery_fee : ℚ
  total : ℚ
  currency : String
  status : String
  payment_reference : Option String
  deriving Repr, DecidableEq

/-- The payment-method literal of `schemas.py` (`Literal` of card and
bank_transfer). -/
inductive PayMethod where
  | card
  | bank_transfer
  deriving Repr, DecidableEq

/-- The payment-initialization response model, from `schemas.py`
(`PaymentInitResponse`). `mode`, `reference` and `payment_method` are
declared without defaults, hence required by pydantic. -/
structure PaymentInitResponse where
  mode : String
  reference : String
  payment_method : PayMethod
  authorization_url : Option String
  account_number : Option String
  account_name : Option String
  bank_name : Option String
  instructions : Option String
  deriving Repr, DecidableEq

/-- The payment-verification response model, from `schemas.py`
(`PaymentVerifyResponse`); all four fields are required. -/
structure PaymentVerifyResponse where
  status : String
  order_status : String
  reference : String
  paid : Bool
  deriving Repr, DecidableEq

/-- Pydantic construction of `PaymentInitResponse`: each keyword argument is
optional at the call site; validation fails, naming the missing field, when
a field without a default (`mode`, `reference`, `payment_method`) is not
supplied. The five url/bank fields default to `None`. -/
def mkPaymentInitResponse (mode reference : Option String)
    (payment_method : Option PayMethod)
    (authorization_url account_number account_name bank_name
      instructions : Option String) :
    Except String PaymentInitResponse :=
  match mode, reference, payment_method with
  | some m, some r, some p =>
      .ok ⟨m, r, p, authorization_url, account_number, account_name,
        bank_name, instructions⟩
  | none, _, _ => .error "mode"
  | _, none, _ => .error "reference"
  | _, _, none => .error "payment_method"

/-- An error escaping a handler, with the HTTP status FastAPI assigns:
`http` is an `HTTPException` raised by the handler carrying its status code
and detail; `validationError` is an uncaught pydantic `ValidationError`
(naming the missing required field) which FastAPI turns into a 500. -/
inductive ApiError where
  | http (statusCode : ℕ) (detail : String)
  | validationError (missingField : String)
  deriving Repr, DecidableEq

/-- The fields of the stored order document that `init_payment` reads. -/
structure OrderDoc where
  total : ℚ
  email : Option String
  deriving Repr, DecidableEq

/-- Observed outcome of the remote Paystack initialize call (`requests.post`
plus `res.json()`): a transport-level exception, or a parsed body with the
overall boolean `status`, the optional `message`, and the optional
`data.authorization_url` (modelled `none` when absent, in which case the
subscript access raises a KeyError). -/
inductive GwInit where
  | transport
  | response (status : Bool) (message : Option String) (authUrl : Option String)
  deriving Repr, DecidableEq

/-- An exception raised inside the `try` block of the live branch of
`init_payment` (`main.py` lines 155–177); every one of these is caught by
the `except Exception` catch-all. -/
inductive LiveExc where
  | transport
  | httpExc (statusCode : ℕ) (detail : String)
  | keyError
  | validationError (missingField : String)
  deriving Repr, DecidableEq

/-- Body of the `try` block of the live (Paystack) branch of `init_payment`
(`main.py` lines 155–177): builds the reference, posts to Paystack, raises
a 502 `HTTPException` when the body field `status` is falsy, reads
`data["data"]["authorization_url"]`, and constructs the live
`PaymentInitResponse` (without supplying `payment_method`). -/
def paystackInitBody (orderId : String) (gw : GwInit) :
    Except LiveExc PaymentInitResponse :=
  let ref := "HF-" ++ orderId
  match gw with
  | .transport => .error .transport
  | .response status message authUrl =>
    if status = false then
      .error (.httpExc 502 ("Paystack error: " ++ message.getD "None"))
    else
      match authUrl with
      | none => .error .keyError
      | some u =>
        match mkPaymentInitResponse (some "live") (some ref) none
            (some u) none none none none with
        | .ok r => .ok r
        | .error f => .error (.validationError f)

/-- The `init_payment` handler (`main.py` lines 127–185). `secret` models
`os.getenv("PAYSTACK_SECRET_KEY")`; `dbUp` models `db is not None`;
`parse` models `ObjectId(order_id)` (raising, i.e. `none`, on malformed
ids); `find` models `db["order"].find_one` on the order collection; `gw`
is the gateway outcome observed if and only if the live branch runs.
Any exception from the live branch is swallowed (`except Exception: pass`)
and control falls through to the simulated branch, whose response
construction does not supply `payment_method` either; a validation failure
there escapes the handler. -/
def init_payment (secret : Option String) (dbUp : Bool)
    (parse : String → Option String) (find : String → Option OrderDoc)
    (gw : GwInit) (orderId : String) : Except ApiError PaymentInitResponse :=
  if orderId = "" then .error (.http 400 "order_id required")
  else if dbUp = false then .error (.http 500 "Database not configured")
  else
    match (parse orderId).bind find with
    | none => .error (.http 404 "Order not found")
    | some _doc =>
      let simulated : Except ApiError PaymentInitResponse :=
        let reference := "HF-" ++ orderId
        let authorization_url :=
          "https://pay.horionfarms.ng/checkout/" ++ reference
        match mkPaymentInitResponse (some "simulated") (some reference) none
            (some authorization_url) none none none none with
        | .ok r => .ok r
        | .error f => .error (.validationError f)
      match secret with
      | none => simulated
      | some _ =>
        match paystackInitBody orderId gw with
        | .ok r => .ok r
        | .error _ => simulated

/-- Observed outcome of the remote Paystack verify call: a transport-level
exception, or a parsed body with the overall boolean `status` and the
optional `data.status` string (missing `data` or missing `status` key both
model as `none`, since the code uses `.get` with defaults there). -/
inductive GwVerify where
  | transport
  | response (status : Bool) (dataStatus : Option String)
  deriving Repr, DecidableEq

/-- The `verify_payment` handler (`main.py` lines 187–215). With a secret
key configured it maps the gateway body to success exactly when `status`
is truthy and `data.status` equals "success"; a transport exception falls
through to the simulated branch; without credentials the simulated branch
returns an unconditional success. All four response fields are supplied at
every construction site, so the handler is total: it never raises. -/
def verify_payment (secret : Option String) (gw : GwVerify)
    (reference : String) : PaymentVerifyResponse :=
  match secret with
  | some _ =>
    match gw with
    | .transport => ⟨"success", "paid", reference, true⟩
    | .response st ds =>
      let paid := st && (ds == some "success")
      let status := if paid then "success" else "failed"
      ⟨status, if paid then "paid" else "failed", reference, paid⟩
  | none => ⟨"success", "paid", reference, true⟩

/-- The response body of a successful `create_order`. -/
structure CreateOrderResult where
  order_id : String
  status : String
  deriving Repr, DecidableEq

/-- Subtotal recomputed from the line items
(`sum([it.unit_price * it.quantity for it in order.items])`). -/
def recomputedSubtotal (items : List OrderItem) : ℚ :=
  (items.map (fun it => it.unit_price * (it.quantity : ℚ))).sum

/-- The `Order` document built on successful validation (`main.py` lines
116–122): the submitted fields plus the schema defaults currency "NGN",
status "pending" and no payment reference. -/
def orderDocOf (o : OrderCreate) : OrderRecord :=
  ⟨o.items, o.customer, o.subtotal, o.delivery_fee, o.total, "NGN",
    "pending", none⟩

/-- The `create_order` handler (`main.py` lines 104–125). `newId` models
the identifier the data store assigns on insert. On success it returns
both the persisted document and the response body. The float tolerance
`1e-2` is modelled as the rational 1/100. -/
def create_order (dbUp : Bool) (newId : String) (o : OrderCreate) :
    Except ApiError (OrderRecord × CreateOrderResult) :=
  if dbUp = false then .error (.http 500 "Database not configured")
  else
    let subtotal := recomputedSubtotal o.items
    if 1/100 < |subtotal - o.subtotal| then
      .error (.http 400 "Subtotal mismatch")
    else
      let total := o.subtotal + o.delivery_fee
      if 1/100 < |total - o.total| then
        .error (.http 400 "Total mismatch")
      else .ok (orderDocOf o, ⟨newId, "pending"⟩)

/-- Static hub service parameters keyed by hub city (`NIGERIA_CITY_HUBS` in
`main.py`): base handling hours, per-kilometre minute cost, cold-chain flag. -/
structure HubCfg where
  base_hours : ℚ
  per_km_min : ℚ
  cold_chain : Bool
  deriving Repr, DecidableEq

/-- The `NIGERIA_CITY_HUBS` table of `main.py` (lines 56–65). -/
def NIGERIA_CITY_HUBS : List (String × HubCfg) :=
  [ ("Lagos", ⟨6, 1.2, true⟩),
    ("Abuja", ⟨12, 1.0, true⟩),
    ("Port Harcourt", ⟨12, 1.1, true⟩),
    ("Ibadan", ⟨8, 1.0, true⟩),
    ("Kano", ⟨16, 1.1, true⟩),
    ("Enugu", ⟨14, 1.0, true⟩),
    ("Benin City", ⟨10, 1.0, true⟩) ]

/-- The `CITY_COORDS` table of `main.py` (lines 67–75): latitude and
longitude in decimal degrees, exact rationals. -/
def CITY_COORDS : List (String × ℚ × ℚ) :=
  [ ("Lagos", (6.5244, 3.3792)),
    ("Abuja", (9.0765, 7.3986)),
    ("Port Harcourt", (4.8156, 7.0498)),
    ("Ibadan", (7.3775, 3.9470)),
    ("Kano", (12.0022, 8.5919)),
    ("Enugu", (6.5244, 7.5174)),
    ("Benin City", (6.3350, 5.6037)) ]

/-- The table entry for Lagos, used by the `eta` handler as the fallback
default of `NIGERIA_CITY_HUBS.get(hub, NIGERIA_CITY_HUBS["Lagos"])`. -/
def lagosCfg : HubCfg := ⟨6, 1.2, true⟩

/-- Degree-to-radian conversion (`math.radians`). -/
noncomputable def radians (x : ℝ) : ℝ := x * Real.pi / 180

/-- Two-argument arctangent (`math.atan2(y, x)`), with the standard range
of (-pi, pi], modelled as the complex argument of x + y*I. -/
noncomputable def atan2 (y x : ℝ) : ℝ := Complex.arg ⟨x, y⟩

/-- The `haversine_km` function of `main.py` (lines 79–85): great-circle
distance on a sphere of radius 6371 km. -/
noncomputable def haversine_km (lat1 lon1 lat2 lon2 : ℝ) : ℝ :=
  let R : ℝ := 6371.0
  let dlat := radians (lat2 - lat1)
  let dlon := radians (lon2 - lon1)
  let a := Real.sin (dlat / 2) ^ 2 +
    Real.cos (radians lat1) * Real.cos (radians lat2) * Real.sin (dlon / 2) ^ 2
  let c := 2 * atan2 (Real.sqrt a) (Real.sqrt (1 - a))
  R * c

/-- Python `round(x, 1)`: one decimal digit. Modelled with the exact
round-half-up integer rounding of the reals; Python additionally works on
binary doubles and resolves exact ties to even, which no claim depends on. -/
noncomputable def pyRound1 (x : ℝ) : ℝ := ((round (x * 10) : ℤ) : ℝ) / 10

/-- The ETA formula applied by the `eta` handler before rounding:
`hub_cfg["base_hours"] + (km * hub_cfg["per_km_min"]) / 60.0`. -/
noncomputable def etaHoursFormula (cfg : HubCfg) (km : ℝ) : ℝ :=
  (cfg.base_hours : ℝ) + km * (cfg.per_km_min : ℝ) / 60

/-- The response body of a successful `eta` call. -/
structure EtaResult where
  city : String
  hub : String
  distance_km : ℝ
  eta_hours : ℝ
  cold_chain : Bool

/-- The `eta` handler (`main.py` lines 87–100): 400 unless both `hub` and
`city` are keys of `CITY_COORDS`; otherwise hub parameters are looked up in
`NIGERIA_CITY_HUBS` with the Lagos entry as default, the haversine distance
is computed at full precision, and distance and ETA are rounded to one
decimal in the response. -/
noncomputable def eta (city : String) (hub : String) :
    Except ApiError EtaResult :=
  match CITY_COORDS.lookup hub, CITY_COORDS.lookup city with
  | some (hlat, hlon), some (clat, clon) =>
    let cfg := (NIGERIA_CITY_HUBS.lookup hub).getD lagosCfg
    let km := haversine_km (hlat : ℝ) (hlon : ℝ) (clat : ℝ) (clon : ℝ)
    let hours := (cfg.base_hours : ℝ) + km * (cfg.per_km_min : ℝ) / 60
    .ok ⟨city, hub, pyRound1 km, pyRound1 hours, cfg.cold_chain⟩
  | _, _ => .error (.http 400 "Unsupported city or hub")

/-! ## Theorems -/

/-- The body of the live Paystack branch never returns a constructed
response: every gateway outcome ends in an exception (transport, the 502
HTTPException on a falsy status, a KeyError on a missing authorization
url, or the ValidationError from the missing payment_method field). -/
lemma paystackInitBody_isErr (orderId : String) (gw : GwInit) :
    ∃ e, paystackInitBody orderId gw = Except.error e := by
  cases gw with
  | transport => exact ⟨_, rfl⟩
  | response st msg authUrl =>
    cases st with
    | false => exact ⟨_, rfl⟩
    | true =>
      cases authUrl with
      | none => exact ⟨_, rfl⟩
      | some u => exact ⟨_, rfl⟩

/-- C3: for every configuration, database state, stored order, gateway
outcome and order id, `init_payment` never returns successfully: the
response model requires `payment_method`, no construction site supplies it,
the live-branch failure is swallowed by the catch-all and the
simulated-branch validation failure escapes the handler. -/
theorem C3_init_payment_never_succeeds (secret : Option String) (dbUp : Bool)
    (parse : String → Option String) (find : String → Option OrderDoc)
    (gw : GwInit) (orderId : String) :
    ∃ e, init_payment secret dbUp parse find gw orderId = Except.error e := by
  unfold init_payment
  split
  · exact ⟨_, rfl⟩
  · split
    · exact ⟨_, rfl⟩
    · split
      · exact ⟨_, rfl⟩
      · cases secret with
        | none => exact ⟨_, rfl⟩
        | some k =>
          obtain ⟨e, he⟩ := paystackInitBody_isErr orderId gw
          simp only [he]
          exact ⟨_, rfl⟩

/-- C1: at a concrete stored order (total 25, a customer email on file)
with no gateway credential configured, `init_payment` does not return the
simulated `PaymentInitResponse` the claim describes: constructing the
response omits the required `payment_method` field, so the handler raises
a pydantic ValidationError instead of returning. -/
theorem C1_simulated_mode_validation_failure :
    init_payment none true (fun s => some s)
      (fun _ => some ⟨25, some "ada@example.com"⟩)
      GwInit.transport "abc123" =
      Except.error (.validationError "payment_method") := rfl

/-- C2: with a gateway credential configured and the gateway reporting an
explicit failure (status false, message "Declined"), the 502 HTTPException
raised inside the try block is caught by its own `except Exception`
catch-all, so no gateway error reaches the client: the handler falls
through to the simulated branch, whose response construction then fails
validation on the missing `payment_method`. -/
theorem C2_gateway_failure_swallowed :
    init_payment (some "sk_test_x") true (fun s => some s)
      (fun _ => some ⟨25, some "ada@example.com"⟩)
      (GwInit.response false (some "Declined") none) "abc123" =
      Except.error (.validationError "payment_method") := rfl

/-- C10: whenever the order id fails to convert to an ObjectId (`parse`
returns `none`) or the store has no matching document, the composed lookup
is `none` and `init_payment` fails with 404 "Order not found"; since the
handler only observes the composed `Option`, a conversion failure is
indistinguishable from a missing document and never surfaces as a distinct
format error. -/
theorem C10_unresolved_order_id_is_404 (secret : Option String)
    (parse : String → Option String) (find : String → Option OrderDoc)
    (gw : GwInit) (orderId : String) (hid : ¬ orderId = "")
    (h : (parse orderId).bind find = none) :
    init_payment secret true parse find gw orderId =
      Except.error (.http 404 "Order not found") := by
  unfold init_payment
  simp [hid, h]

/-- Witness for C10 at the malformed id "zzz" with a parser that always
fails, as `ObjectId` does on a non-hex string. -/
theorem C10_unresolved_order_id_is_404_witness :
    (¬ ("zzz" : String) = "") ∧
    ((((fun _ => none) : String → Option String) "zzz").bind
        ((fun _ => some ⟨25, none⟩) : String → Option OrderDoc) = none) ∧
    init_payment none true (fun _ => none) (fun _ => some ⟨25, none⟩)
      GwInit.transport "zzz" =
      Except.error (.http 404 "Order not found") :=
  ⟨by decide, rfl,
    C10_unresolved_order_id_is_404 none (fun _ => none)
      (fun _ => some ⟨25, none⟩) GwInit.transport "zzz" (by decide) rfl⟩

/-- C6: with no gateway credential the verify handler returns the
unconditional simulated success for every reference string (including the
empty string), and with a credential a transport-level exception falls
through to the same simulated success; the handler is a total function,
so the endpoint never fails. -/
theorem C6_verify_simulated_success (reference k : String) (gw : GwVerify) :
    verify_payment none gw reference =
      ⟨"success", "paid", reference, true⟩ ∧
    verify_payment (some k) GwVerify.transport reference =
      ⟨"success", "paid", reference, true⟩ :=
  ⟨rfl, rfl⟩

/-- C7: with a credential configured and a completed gateway verify call,
the handler returns the paid success triple exactly when the
overall status is true and `data.status` is "success"; every other
completed outcome yields the failed triple, the submitted reference echoed
back in both cases. -/
theorem C7_verify_live_mapping (k reference : String) (st : Bool)
    (ds : Option String) :
    verify_payment (some k) (GwVerify.response st ds) reference =
      if st = true ∧ ds = some "success" then
        ⟨"success", "paid", reference, true⟩
      else ⟨"failed", "failed", reference, false⟩ := by
  unfold verify_payment
  cases st with
  | false => simp
  | true =>
    cases ds with
    | none => simp
    | some s => by_cases hs : s = "success" <;> simp [hs]

/-- C4: with the store configured, `create_order` accepts exactly when the
recomputed subtotal is within 0.01 of the submitted subtotal and the
submitted subtotal plus delivery fee is within 0.01 of the submitted
total; a subtotal violation yields the Subtotal mismatch error, a total
violation (with the subtotal check passing first) the Total mismatch
error, and acceptance persists the order with status "pending" and returns
the assigned id with status "pending". -/
theorem C4_create_order_spec (newId : String) (o : OrderCreate) :
    ((∃ r, create_order true newId o = Except.ok r) ↔
      (|recomputedSubtotal o.items - o.subtotal| ≤ 1/100 ∧
       |o.subtotal + o.delivery_fee - o.total| ≤ 1/100)) ∧
    (1/100 < |recomputedSubtotal o.items - o.subtotal| →
      create_order true newId o =
        Except.error (.http 400 "Subtotal mismatch")) ∧
    (|recomputedSubtotal o.items - o.subtotal| ≤ 1/100 →
      1/100 < |o.subtotal + o.delivery_fee - o.total| →
      create_order true newId o = Except.error (.http 400 "Total mismatch")) ∧
    (|recomputedSubtotal o.items - o.subtotal| ≤ 1/100 →
      |o.subtotal + o.delivery_fee - o.total| ≤ 1/100 →
      create_order true newId o =
        Except.ok (orderDocOf o, ⟨newId, "pending"⟩)) := by
  have key : create_order true newId o =
      (if 1/100 < |recomputedSubtotal o.items - o.subtotal| then
        Except.error (.http 400 "Subtotal mismatch")
      else if 1/100 < |o.subtotal + o.delivery_fee - o.total| then
        Except.error (.http 400 "Total mismatch")
      else Except.ok (orderDocOf o, ⟨newId, "pending"⟩)) := by
    unfold create_order
    simp
  rw [key]
  split_ifs with h1 h2
  · have hF : ¬ (|recomputedSubtotal o.items - o.subtotal| ≤ (100:ℚ)⁻¹) := by
      rw [← one_div]
      exact not_le.mpr h1
    simp [h1]
    exact ⟨fun h => absurd h hF, fun h => absurd h hF, fun h => absurd h hF⟩
  · have hA : |recomputedSubtotal o.items - o.subtotal| ≤ (100:ℚ)⁻¹ := by
      rw [← one_div]
      exact not_lt.mp h1
    have hB : (100:ℚ)⁻¹ < |o.subtotal + o.delivery_fee - o.total| := by
      rw [← one_div]
      exact h2
    simp [h1, h2]
    exact ⟨fun _ => hB, hA, fun _ => hB⟩
  · have hA : |recomputedSubtotal o.items - o.subtotal| ≤ (100:ℚ)⁻¹ := by
      rw [← one_div]
      exact not_lt.mp h1
    have hB : |o.subtotal + o.delivery_fee - o.total| ≤ (100:ℚ)⁻¹ := by
      rw [← one_div]
      exact not_lt.mp h2
    simp [h1, h2]
    exact ⟨⟨hA, hB⟩, hA, fun _ => hB⟩

/-- A concrete customer for the validation example of the spec. -/
def sampleCustomer : CustomerInfo :=
  ⟨"Ada", "ada@example.com", "0800000000", "12 Market Road", "Lagos"⟩

/-- The order of the validation example in the spec: items priced 10 times 2 and
5 times 1, subtotal 25, delivery fee 5, total 30. -/
def sampleOrder : OrderCreate :=
  ⟨[⟨"Yam", 10, 2⟩, ⟨"Catfish", 5, 1⟩], sampleCustomer, 25, 5, 30⟩

/-- Witness for C4 at the example order of the spec, which both checks accept. -/
theorem C4_create_order_spec_witness :
    (|recomputedSubtotal sampleOrder.items - sampleOrder.subtotal| ≤ 1/100 ∧
     |sampleOrder.subtotal + sampleOrder.delivery_fee - sampleOrder.total| ≤
       1/100) ∧
    create_order true "order1" sampleOrder =
      Except.ok (orderDocOf sampleOrder, ⟨"order1", "pending"⟩) :=
  ⟨⟨by norm_num [recomputedSubtotal, sampleOrder],
    by norm_num [sampleOrder]⟩,
    (C4_create_order_spec "order1" sampleOrder).2.2.2
      (by norm_num [recomputedSubtotal, sampleOrder])
      (by norm_num [sampleOrder])⟩

/-- Degree-to-radian conversion of a difference is antisymmetric. -/
lemma radians_sub_neg (x y : ℝ) : radians (x - y) = -(radians (y - x)) := by
  unfold radians
  ring

/-- The squared half-angle sine term of the haversine formula is symmetric
in its two coordinates. -/
lemma sin_sq_radians_sub (x y : ℝ) :
    Real.sin (radians (x - y) / 2) ^ 2 =
      Real.sin (radians (y - x) / 2) ^ 2 := by
  rw [radians_sub_neg, neg_div, Real.sin_neg, neg_sq]

/-- Converting zero degrees gives zero radians. -/
lemma radians_zero : radians 0 = 0 := by
  unfold radians
  ring

/-- The two-argument arctangent is non-negative when its first argument
(the y-coordinate) is non-negative. -/
lemma atan2_nonneg (y x : ℝ) (hy : 0 ≤ y) : 0 ≤ atan2 y x :=
  Complex.arg_nonneg_iff.mpr hy

/-- The two-argument arctangent vanishes at the point (1, 0). -/
lemma atan2_zero_one : atan2 0 1 = 0 := by
  unfold atan2
  have h1 : (⟨1, 0⟩ : ℂ) = 1 := by
    apply Complex.ext <;> simp
  rw [h1, Complex.arg_one]

/-- C8: the haversine distance is symmetric in its two coordinate pairs,
always non-negative, and zero when the two coordinate pairs coincide; by
instantiation this holds for every (hub, city) pair of the geo tables. -/
theorem C8_haversine_symm_nonneg_zero (lat1 lon1 lat2 lon2 : ℝ) :
    haversine_km lat1 lon1 lat2 lon2 = haversine_km lat2 lon2 lat1 lon1 ∧
    0 ≤ haversine_km lat1 lon1 lat2 lon2 ∧
    haversine_km lat1 lon1 lat1 lon1 = 0 := by
  refine ⟨?_, ?_, ?_⟩
  · simp only [haversine_km]
    have ha : Real.sin (radians (lat2 - lat1) / 2) ^ 2 +
        Real.cos (radians lat1) * Real.cos (radians lat2) *
          Real.sin (radians (lon2 - lon1) / 2) ^ 2 =
        Real.sin (radians (lat1 - lat2) / 2) ^ 2 +
        Real.cos (radians lat2) * Real.cos (radians lat1) *
          Real.sin (radians (lon1 - lon2) / 2) ^ 2 := by
      rw [sin_sq_radians_sub lat2 lat1, sin_sq_radians_sub lon2 lon1]
      ring
    rw [ha]
  · simp only [haversine_km]
    have h1 : 0 ≤ atan2
        (Real.sqrt (Real.sin (radians (lat2 - lat1) / 2) ^ 2 +
          Real.cos (radians lat1) * Real.cos (radians lat2) *
            Real.sin (radians (lon2 - lon1) / 2) ^ 2))
        (Real.sqrt (1 - (Real.sin (radians (lat2 - lat1) / 2) ^ 2 +
          Real.cos (radians lat1) * Real.cos (radians lat2) *
            Real.sin (radians (lon2 - lon1) / 2) ^ 2))) :=
      atan2_nonneg _ _ (Real.sqrt_nonneg _)
    have h2 : (0:ℝ) ≤ 6371.0 := by norm_num
    exact mul_nonneg h2 (mul_nonneg (by norm_num) h1)
  · simp [haversine_km, radians_zero, atan2_zero_one]

/-- Every key of the coordinate table is also a key of the hub-parameter
table, so the Lagos fallback of the `eta` handler is never taken for a
request that passes the membership check. -/
lemma hubs_lookup_isSome (s : String) :
    (CITY_COORDS.lookup s).isSome = true →
      (NIGERIA_CITY_HUBS.lookup s).isSome = true := by
  intro h
  simp only [CITY_COORDS, List.lookup] at h
  simp only [NIGERIA_CITY_HUBS, List.lookup]
  repeat' split at h
  all_goals simp_all

/-- Every hub-parameter entry of the table has a positive per-kilometre
minute cost. -/
lemma per_km_min_pos (s : String) (cfg : HubCfg)
    (h : NIGERIA_CITY_HUBS.lookup s = some cfg) : 0 < cfg.per_km_min := by
  simp only [NIGERIA_CITY_HUBS, List.lookup] at h
  repeat' split at h
  all_goals first
    | exact Option.noConfusion h
    | (injection h with h2; rw [← h2]; norm_num)

/-- C5: the `eta` handler fails with the 400 unsupported-location error
exactly when the hub or the city is missing from the coordinate table;
every coordinate-table key has hub parameters, so the Lagos default is
never resolved; and on success the response carries the full-precision
haversine distance and the ETA formula value, each rounded to one decimal
only in the response, with `cold_chain` the static flag of the resolved hub. -/
theorem C5_eta_spec (city hub : String) :
    ((eta city hub = Except.error (.http 400 "Unsupported city or hub")) ↔
      (CITY_COORDS.lookup hub = none ∨ CITY_COORDS.lookup city = none)) ∧
    ((CITY_COORDS.lookup hub).isSome = true →
      (NIGERIA_CITY_HUBS.lookup hub).isSome = true) ∧
    (∀ cfg hlat hlon clat clon,
      NIGERIA_CITY_HUBS.lookup hub = some cfg →
      CITY_COORDS.lookup hub = some (hlat, hlon) →
      CITY_COORDS.lookup city = some (clat, clon) →
      eta city hub = Except.ok
        ⟨city, hub,
          pyRound1 (haversine_km (hlat : ℝ) (hlon : ℝ) (clat : ℝ) (clon : ℝ)),
          pyRound1 (etaHoursFormula cfg
            (haversine_km (hlat : ℝ) (hlon : ℝ) (clat : ℝ) (clon : ℝ))),
          cfg.cold_chain⟩) := by
  refine ⟨?_, hubs_lookup_isSome hub, ?_⟩
  · unfold eta
    rcases hh : CITY_COORDS.lookup hub with _ | ⟨hlat, hlon⟩ <;>
      rcases hc : CITY_COORDS.lookup city with _ | ⟨clat, clon⟩ <;>
        simp
  · intro cfg hlat hlon clat clon h1 h2 h3
    unfold eta
    rw [h2, h3, h1]
    simp [etaHoursFormula]

/-- Witness for C5 at the example of the spec with hub Lagos and city Abuja. -/
theorem C5_eta_spec_witness :
    NIGERIA_CITY_HUBS.lookup "Lagos" = some lagosCfg ∧
    CITY_COORDS.lookup "Lagos" = some (6.5244, 3.3792) ∧
    CITY_COORDS.lookup "Abuja" = some (9.0765, 7.3986) ∧
    eta "Abuja" "Lagos" = Except.ok
      ⟨"Abuja", "Lagos",
        pyRound1 (haversine_km ((6.5244 : ℚ) : ℝ) ((3.3792 : ℚ) : ℝ)
          ((9.0765 : ℚ) : ℝ) ((7.3986 : ℚ) : ℝ)),
        pyRound1 (etaHoursFormula lagosCfg
          (haversine_km ((6.5244 : ℚ) : ℝ) ((3.3792 : ℚ) : ℝ)
            ((9.0765 : ℚ) : ℝ) ((7.3986 : ℚ) : ℝ))),
        lagosCfg.cold_chain⟩ :=
  ⟨rfl, rfl, rfl,
    (C5_eta_spec "Abuja" "Lagos").2.2 lagosCfg 6.5244 3.3792 9.0765 7.3986
      rfl rfl rfl⟩

/-- C9: for a fixed hub of the table, the ETA is monotonically
non-decreasing in the distance, both before and after the one-decimal
rounding, because the per-kilometre minute cost of every hub is positive. -/
theorem C9_eta_monotone_in_distance (hub : String) (cfg : HubCfg)
    (hcfg : NIGERIA_CITY_HUBS.lookup hub = some cfg)
    (d1 d2 : ℝ) (hd : d1 ≤ d2) :
    etaHoursFormula cfg d1 ≤ etaHoursFormula cfg d2 ∧
    pyRound1 (etaHoursFormula cfg d1) ≤ pyRound1 (etaHoursFormula cfg d2) := by
  have hpos : (0 : ℝ) < (cfg.per_km_min : ℝ) := by
    exact_mod_cast per_km_min_pos hub cfg hcfg
  have hmain : etaHoursFormula cfg d1 ≤ etaHoursFormula cfg d2 := by
    unfold etaHoursFormula
    have h := mul_le_mul_of_nonneg_right hd (le_of_lt hpos)
    linarith
  refine ⟨hmain, ?_⟩
  unfold pyRound1
  have hr : round (etaHoursFormula cfg d1 * 10) ≤
      round (etaHoursFormula cfg d2 * 10) := by
    rw [round_eq, round_eq]
    exact Int.floor_le_floor (by linarith)
  have hcast : ((round (etaHoursFormula cfg d1 * 10) : ℤ) : ℝ) ≤
      ((round (etaHoursFormula cfg d2 * 10) : ℤ) : ℝ) := by
    exact_mod_cast hr
  linarith

/-- Witness for C9 at hub Lagos with distances 0 and 1. -/
theorem C9_eta_monotone_in_distance_witness :
    NIGERIA_CITY_HUBS.lookup "Lagos" = some lagosCfg ∧ ((0 : ℝ) ≤ 1) ∧
    (etaHoursFormula lagosCfg 0 ≤ etaHoursFormula lagosCfg 1 ∧
     pyRound1 (etaHoursFormula lagosCfg 0) ≤
       pyRound1 (etaHoursFormula lagosCfg 1)) :=
  ⟨rfl, by norm_num,
    C9_eta_monotone_in_distance "Lagos" lagosCfg rfl 0 1 (by norm_num)⟩

end HorionFarms
